import Mathlib

/-
  Verification of the Telegram secret resolver
  (src/src/utils/telegram-secret.ts) of the tg-assistant repository.

  The resolver is embedded shallowly:
  - JSON.parse is modelled by an executable fueled JSON parser over List Char.
  - String.prototype.trim is modelled by jsTrim (ASCII whitespace).
  - parseSecretString, isProduction and the branch logic of
    getTelegramSecrets are direct translations of the TypeScript code.
  - The cooperative single-threaded async execution of getTelegramSecrets
    (module state cachedSecrets / inFlight, the await point on the secret
    store call, and the finally clearing the in-flight marker) is modelled
    as a step function on an explicit system state driven by events:
    a caller invoking getTelegramSecrets, the store responding to the
    pending fetch, and a mutation of process.env between suspension points.
-/

namespace TgSecret

/-- JavaScript values produced by JSON.parse, as needed by the resolver.
Numbers keep their lexeme; their numeric value is never consumed by the
resolver beyond truthiness. -/
inductive Json where
  | null : Json
  | bool : Bool → Json
  | num : String → Json
  | str : String → Json
  | arr : List Json → Json
  | obj : List (String × Json) → Json

def lbrace : Char := Char.ofNat 123

def rbrace : Char := Char.ofNat 125

/-- JSON insignificant whitespace, also the set trimmed by the model of
String.prototype.trim for the strings this program handles. -/
def isJsonWs (c : Char) : Bool :=
  c == ' ' || c == '\t' || c == '\n' || c == '\r'

def skipWs : List Char → List Char
  | [] => []
  | c :: cs => if isJsonWs c then skipWs cs else c :: cs

/-- Model of String.prototype.trim (ASCII whitespace). -/
def trimChars (cs : List Char) : List Char :=
  ((cs.dropWhile isJsonWs).reverse.dropWhile isJsonWs).reverse

def jsTrim (s : String) : String :=
  String.mk (trimChars s.toList)

def hexVal (c : Char) : Option Nat :=
  if '0' ≤ c ∧ c ≤ '9' then some (c.toNat - '0'.toNat)
  else if 'a' ≤ c ∧ c ≤ 'f' then some (c.toNat - 'a'.toNat + 10)
  else if 'A' ≤ c ∧ c ≤ 'F' then some (c.toNat - 'A'.toNat + 10)
  else none

/-- Body of a JSON string literal, after the opening quote. -/
def parseStringBody : Nat → List Char → Option (String × List Char)
  | 0, _ => none
  | _, [] => none
  | Nat.succ fuel, c :: cs =>
    if c == '"' then some ("", cs)
    else if c == '\\' then
      match cs with
      | [] => none
      | e :: cs2 =>
        let cont : Char → List Char → Option (String × List Char) :=
          fun ch rest =>
            match parseStringBody fuel rest with
            | some (s, r) => some (String.mk (ch :: s.toList), r)
            | none => none
        if e == '"' then cont '"' cs2
        else if e == '\\' then cont '\\' cs2
        else if e == '/' then cont '/' cs2
        else if e == 'b' then cont (Char.ofNat 8) cs2
        else if e == 'f' then cont (Char.ofNat 12) cs2
        else if e == 'n' then cont '\n' cs2
        else if e == 'r' then cont '\r' cs2
        else if e == 't' then cont '\t' cs2
        else if e == 'u' then
          match cs2 with
          | h1 :: h2 :: h3 :: h4 :: cs3 =>
            match hexVal h1, hexVal h2, hexVal h3, hexVal h4 with
            | some a, some b, some c2, some d =>
              cont (Char.ofNat (((a * 16 + b) * 16 + c2) * 16 + d)) cs3
            | _, _, _, _ => none
          | _ => none
        else none
    else if c.toNat < 32 then none
    else
      match parseStringBody fuel cs with
      | some (s, r) => some (String.mk (c :: s.toList), r)
      | none => none

def takeDigits : List Char → (List Char × List Char)
  | [] => ([], [])
  | c :: cs =>
    if c.isDigit then
      let p := takeDigits cs
      (c :: p.1, p.2)
    else ([], c :: cs)

/-- JSON number lexeme: sign, integer part, optional fraction and exponent. -/
def parseNumber (cs0 : List Char) : Option (String × List Char) :=
  let signAnd : List Char × List Char :=
    match cs0 with
    | '-' :: cs => (['-'], cs)
    | cs => ([], cs)
  let sign := signAnd.1
  let afterSign := signAnd.2
  let intAnd : Option (List Char × List Char) :=
    match afterSign with
    | '0' :: cs => some (['0'], cs)
    | c :: cs =>
      if c.isDigit then
        let p := takeDigits cs
        some (c :: p.1, p.2)
      else none
    | [] => none
  match intAnd with
  | none => none
  | some (ip, afterInt) =>
    let fracAnd : Option (List Char × List Char) :=
      match afterInt with
      | '.' :: cs =>
        let p := takeDigits cs
        if p.1.isEmpty then none else some ('.' :: p.1, p.2)
      | cs => some ([], cs)
    match fracAnd with
    | none => none
    | some (fp, afterFrac) =>
      let expAnd : Option (List Char × List Char) :=
        match afterFrac with
        | e :: cs =>
          if e == 'e' || e == 'E' then
            let signedDigits : Option (List Char × List Char) :=
              match cs with
              | s :: cs2 =>
                if s == '+' || s == '-' then
                  let p := takeDigits cs2
                  if p.1.isEmpty then none else some (e :: s :: p.1, p.2)
                else
                  let p := takeDigits cs
                  if p.1.isEmpty then none else some (e :: p.1, p.2)
              | [] => none
            signedDigits
          else some ([], e :: cs)
        | [] => some ([], [])
      match expAnd with
      | none => none
      | some (ep, rest) => some (String.mk (sign ++ ip ++ fp ++ ep), rest)

mutual

def parseValue : Nat → List Char → Option (Json × List Char)
  | 0, _ => none
  | Nat.succ fuel, cs =>
    match cs with
    | [] => none
    | 'n' :: 'u' :: 'l' :: 'l' :: r => some (Json.null, r)
    | 't' :: 'r' :: 'u' :: 'e' :: r => some (Json.bool true, r)
    | 'f' :: 'a' :: 'l' :: 's' :: 'e' :: r => some (Json.bool false, r)
    | '"' :: r =>
      match parseStringBody (Nat.succ fuel) r with
      | some (s, r2) => some (Json.str s, r2)
      | none => none
    | '[' :: r =>
      match skipWs r with
      | ']' :: r3 => some (Json.arr [], r3)
      | r2 =>
        match parseElems fuel r2 with
        | some (xs, r3) => some (Json.arr xs, r3)
        | none => none
    | c :: r =>
      if c == lbrace then
        match skipWs r with
        | d :: r3 =>
          if d == rbrace then some (Json.obj [], r3)
          else
            match parseMembers fuel (d :: r3) with
            | some (fs, r4) => some (Json.obj fs, r4)
            | none => none
        | [] => none
      else
        match parseNumber (c :: r) with
        | some (lex, r2) => some (Json.num lex, r2)
        | none => none

def parseElems : Nat → List Char → Option (List Json × List Char)
  | 0, _ => none
  | Nat.succ fuel, cs =>
    match parseValue fuel (skipWs cs) with
    | none => none
    | some (v, r) =>
      match skipWs r with
      | ',' :: r2 =>
        match parseElems fuel r2 with
        | some (vs, r3) => some (v :: vs, r3)
        | none => none
      | ']' :: r2 => some ([v], r2)
      | _ => none

def parseMembers : Nat → List Char → Option (List (String × Json) × List Char)
  | 0, _ => none
  | Nat.succ fuel, cs =>
    match skipWs cs with
    | '"' :: r =>
      match parseStringBody (Nat.succ fuel) r with
      | none => none
      | some (k, r2) =>
        match skipWs r2 with
        | ':' :: r3 =>
          match parseValue fuel (skipWs r3) with
          | none => none
          | some (v, r4) =>
            match skipWs r4 with
            | ',' :: r5 =>
              match parseMembers fuel r5 with
              | some (fs, r6) => some ((k, v) :: fs, r6)
              | none => none
            | d :: r5 => if d == rbrace then some ([(k, v)], r5) else none
            | [] => none
        | _ => none
    | _ => none

end

/-- Model of JSON.parse: some value on success, none when the input is not
valid JSON. -/
def jsonParse (s : String) : Option Json :=
  match parseValue (s.length + 1) (skipWs s.toList) with
  | some (v, rest) => if (skipWs rest).isEmpty then some v else none
  | none => none

def mantissaChars (cs : List Char) : List Char :=
  cs.takeWhile (fun c => c != 'e' && c != 'E')

def jsNumLexIsZero (lex : String) : Bool :=
  (mantissaChars lex.toList).all (fun c => !c.isDigit || c == '0')

/-- JavaScript truthiness of a JSON.parse result. -/
def jsFalsy : Json → Bool
  | Json.null => true
  | Json.bool b => !b
  | Json.num lex => jsNumLexIsZero lex
  | Json.str s => s == ""
  | Json.arr _ => false
  | Json.obj _ => false

/-- Whether the JavaScript typeof of the value is the string object. -/
def jsTypeofObject : Json → Bool
  | Json.null => true
  | Json.arr _ => true
  | Json.obj _ => true
  | _ => false

/-- Property lookup on a JSON.parse object: the last binding of a
duplicated key wins, as in JavaScript. -/
def lookupLast : List (String × Json) → String → Option Json
  | [], _ => none
  | (k2, v) :: rest, k =>
    match lookupLast rest k with
    | some v2 => some v2
    | none => if k2 == k then some v else none

def jsGetField : Json → String → Option Json
  | Json.obj fs, k => lookupLast fs k
  | _, _ => none

/-- The expression typeof shape[k] === string ? shape[k].trim() : empty. -/
def jsStringField (j : Json) (k : String) : String :=
  match jsGetField j k with
  | some (Json.str s) => jsTrim s
  | _ => ""

/-- Error taxonomy of the resolver, one constructor per error class of the
source, carrying the message passed to the constructor. -/
inductive SecretError where
  | configError (message : String)
  | secretNotFoundError (message : String)
  | secretMalformedError (message : String)
deriving DecidableEq

structure TelegramSecretsResolved where
  webhookSecret : String
  botToken : String
deriving DecidableEq

abbrev Outcome := Except SecretError TelegramSecretsResolved

/-- parseSecretString of telegram-secret.ts. The try/catch is modelled by
Except; JSON.parse failure maps to the generic malformed error of the
catch clause. -/
def parseSecretString (secretString : String) : Outcome :=
  match jsonParse secretString with
  | none => Except.error (SecretError.secretMalformedError "Failed to parse secret JSON")
  | some parsed =>
    if jsFalsy parsed || !(jsTypeofObject parsed) then
      Except.error (SecretError.secretMalformedError "Secret JSON is not an object")
    else
      let webhookSecret := jsStringField parsed "webhookSecret"
      let botToken := jsStringField parsed "botToken"
      if webhookSecret.length == 0 then
        Except.error (SecretError.secretMalformedError "webhookSecret missing or empty")
      else if botToken.length == 0 then
        Except.error (SecretError.secretMalformedError "botToken missing or empty")
      else Except.ok { webhookSecret := webhookSecret, botToken := botToken }

/-- The process environment entries read by the resolver; none models an
unset variable. -/
structure Env where
  TELEGRAM_SECRET_ARN : Option String
  TELEGRAM_WEBHOOK_SECRET : Option String
  TELEGRAM_BOT_TOKEN : Option String
  NODE_ENV : Option String
deriving DecidableEq

def toLowerChar (c : Char) : Char :=
  if 'A' ≤ c ∧ c ≤ 'Z' then Char.ofNat (c.toNat + 32) else c

/-- Model of String.prototype.toLowerCase on the ASCII range. -/
def jsToLower (s : String) : String :=
  String.mk (s.toList.map toLowerChar)

/-- isProduction of telegram-secret.ts. -/
def isProduction (env : Env) : Bool :=
  jsToLower (env.NODE_ENV.getD "") == "production"

/-- JavaScript truthiness of an optional string (undefined and the empty
string are falsy). -/
def optTruthy : Option String → Bool
  | none => false
  | some s => s != ""

/-- The guard arn and arn.trim().length greater than zero. -/
def arnConfigured (arn : Option String) : Bool :=
  optTruthy arn && decide (0 < (jsTrim (arn.getD "")).length)

/-- The guard on both fallback variables. -/
def fallbackConfigured (w t : Option String) : Bool :=
  optTruthy w && decide (0 < (jsTrim (w.getD "")).length) &&
  (optTruthy t && decide (0 < (jsTrim (t.getD "")).length))

/-- hasConfiguredSecretEnv of telegram-secret.ts. -/
def hasConfiguredSecretEnv (env : Env) : Bool :=
  (optTruthy env.TELEGRAM_SECRET_ARN &&
    jsTrim (env.TELEGRAM_SECRET_ARN.getD "") != "") ||
  ((optTruthy env.TELEGRAM_WEBHOOK_SECRET &&
     jsTrim (env.TELEGRAM_WEBHOOK_SECRET.getD "") != "") &&
   (optTruthy env.TELEGRAM_BOT_TOKEN &&
     jsTrim (env.TELEGRAM_BOT_TOKEN.getD "") != ""))

/-- What the body of exec does synchronously, up to its only suspension
point: either it issues a store fetch for the configured identifier and
suspends, or it completes with an outcome without contacting the store. -/
inductive ExecStart where
  | fetch (arn : String)
  | sync (o : Outcome)

/-- The branch selection of exec in getTelegramSecrets, reading the
environment at the moment the exec body starts. -/
def execStart (env : Env) : ExecStart :=
  if arnConfigured env.TELEGRAM_SECRET_ARN then
    ExecStart.fetch (env.TELEGRAM_SECRET_ARN.getD "")
  else if fallbackConfigured env.TELEGRAM_WEBHOOK_SECRET env.TELEGRAM_BOT_TOKEN then
    ExecStart.sync (Except.ok
      { webhookSecret := env.TELEGRAM_WEBHOOK_SECRET.getD ""
        botToken := env.TELEGRAM_BOT_TOKEN.getD "" })
  else if isProduction env then
    ExecStart.sync (Except.error
      (SecretError.configError "TELEGRAM_SECRET_ARN is required in production"))
  else
    ExecStart.sync (Except.error
      (SecretError.secretNotFoundError "Telegram secrets not fully configured"))

/-- The continuation of exec after the store fetch resolves:
resp.SecretString is none (undefined) or a string; a falsy value fails
with SecretNotFoundError, otherwise the payload is parsed. -/
def fetchContinuation : Option String → Outcome
  | none => Except.error (SecretError.secretNotFoundError "SecretString is empty")
  | some s =>
    if s == "" then
      Except.error (SecretError.secretNotFoundError "SecretString is empty")
    else parseSecretString s

/-- The in-flight resolution: the identifier the pending store fetch was
issued with and the callers awaiting the shared promise. -/
structure Attempt where
  arn : String
  waiters : List Nat
deriving DecidableEq

/-- Whole-system state of the cooperative execution: current process
environment, the two module variables of telegram-secret.ts, the number
of store fetches issued so far, and the settled outcome of each caller. -/
structure SysState where
  env : Env
  cachedSecrets : Option TelegramSecretsResolved
  inFlight : Option Attempt
  fetches : Nat
  settled : List (Nat × Outcome)

/-- Events of the cooperative execution: a caller invoking
getTelegramSecrets, the store resolving the pending fetch with
resp.SecretString, and a mutation of process.env. -/
inductive Event where
  | call (cid : Nat)
  | storeReturn (secretString : Option String)
  | setEnv (e : Env)

/-- One invocation of getTelegramSecrets by caller cid: return the cache
when populated, join the in-flight attempt when one exists, otherwise run
the exec body up to its first suspension point. The finally handler that
clears inFlight runs when the attempt settles, so synchronous completions
leave inFlight empty. -/
def getTelegramSecretsCall (s : SysState) (cid : Nat) : SysState :=
  match s.cachedSecrets with
  | some v => { s with settled := s.settled ++ [(cid, Except.ok v)] }
  | none =>
    match s.inFlight with
    | some att =>
      { s with inFlight := some { att with waiters := att.waiters ++ [cid] } }
    | none =>
      match execStart s.env with
      | ExecStart.fetch arn =>
        { s with
          inFlight := some { arn := arn, waiters := [cid] }
          fetches := s.fetches + 1 }
      | ExecStart.sync o =>
        { s with
          cachedSecrets :=
            (match o with
             | Except.ok v => some v
             | Except.error _ => s.cachedSecrets)
          settled := s.settled ++ [(cid, o)] }

/-- The store resolving the pending fetch: the exec continuation runs,
the cache is written on success only, the finally handler clears the
in-flight marker, and every waiter settles with the shared outcome. -/
def storeReturnStep (s : SysState) (p : Option String) : SysState :=
  match s.inFlight with
  | none => s
  | some att =>
    let o := fetchContinuation p
    { s with
      cachedSecrets :=
        (match o with
         | Except.ok v => some v
         | Except.error _ => s.cachedSecrets)
      inFlight := none
      settled := s.settled ++ att.waiters.map (fun c => (c, o)) }

def step (s : SysState) (e : Event) : SysState :=
  match e with
  | Event.call cid => getTelegramSecretsCall s cid
  | Event.storeReturn p => storeReturnStep s p
  | Event.setEnv env => { s with env := env }

def run (s : SysState) (es : List Event) : SysState :=
  es.foldl step s

/-- clearTelegramSecretCache of telegram-secret.ts. -/
def clearTelegramSecretCache (s : SysState) : SysState :=
  { s with cachedSecrets := none, inFlight := none }

/-- Caller ids of the call events of a trace, in order. -/
def callIds (es : List Event) : List Nat :=
  es.filterMap (fun e =>
    match e with
    | Event.call c => some c
    | _ => none)

def isStoreReturn : Event → Bool
  | Event.storeReturn _ => true
  | _ => false

theorem dropWhile_eq_self_of_head (p : Char → Bool) (l : List Char)
    (h : ∀ x, l.head? = some x → p x = false) : l.dropWhile p = l := by
  cases l with
  | nil => rfl
  | cons a r => simp [List.dropWhile_cons, h a rfl]

theorem head_dropWhile_false (p : Char → Bool) (l : List Char) :
    ∀ x, (l.dropWhile p).head? = some x → p x = false := by
  induction l with
  | nil => intro x hx; simp at hx
  | cons a r ih =>
    intro x hx
    rw [List.dropWhile_cons] at hx
    by_cases hpa : p a
    · rw [if_pos hpa] at hx
      exact ih x hx
    · rw [if_neg hpa] at hx
      simp only [List.head?_cons, Option.some.injEq] at hx
      rw [← hx]
      simpa using hpa

theorem dropWhile_dropWhile (p : Char → Bool) (l : List Char) :
    (l.dropWhile p).dropWhile p = l.dropWhile p :=
  dropWhile_eq_self_of_head p _ (head_dropWhile_false p l)

theorem trimChars_left_fixed (cs : List Char) :
    (trimChars cs).dropWhile isJsonWs = trimChars cs := by
  apply dropWhile_eq_self_of_head
  intro x hx
  unfold trimChars at hx
  rw [List.head?_reverse] at hx
  obtain ⟨pre, hpre⟩ :=
    List.dropWhile_suffix (l := (cs.dropWhile isJsonWs).reverse) isJsonWs
  have hBne : (cs.dropWhile isJsonWs).reverse.dropWhile isJsonWs ≠ [] := by
    intro hB0
    rw [hB0] at hx
    simp at hx
  have h1 : (cs.dropWhile isJsonWs).reverse.getLast? = some x := by
    rw [← hpre, List.getLast?_append_of_ne_nil pre hBne]
    exact hx
  rw [List.getLast?_reverse] at h1
  exact head_dropWhile_false isJsonWs cs x h1

theorem trimChars_idem (cs : List Char) : trimChars (trimChars cs) = trimChars cs := by
  show (((trimChars cs).dropWhile isJsonWs).reverse.dropWhile isJsonWs).reverse = trimChars cs
  rw [trimChars_left_fixed]
  have h2 : (trimChars cs).reverse = (cs.dropWhile isJsonWs).reverse.dropWhile isJsonWs := by
    unfold trimChars
    rw [List.reverse_reverse]
  rw [h2, dropWhile_dropWhile]
  rfl

theorem jsTrim_idem (s : String) : jsTrim (jsTrim s) = jsTrim s := by
  show String.mk (trimChars (trimChars s.toList)) = String.mk (trimChars s.toList)
  rw [trimChars_idem]

theorem jsTrim_empty : jsTrim "" = "" := rfl

theorem jsTrim_pos_ne_empty (s : String) (h : 0 < (jsTrim s).length) : s ≠ "" := by
  intro he
  rw [he, jsTrim_empty] at h
  exact absurd h (by decide)

/-- jsStringField always returns a trim-fixed string: either the trim of a
string field or the empty string. -/
theorem jsStringField_trim_fixed (j : Json) (k : String) :
    jsTrim (jsStringField j k) = jsStringField j k := by
  unfold jsStringField
  cases jsGetField j k with
  | none => rfl
  | some jv =>
    cases jv with
    | str s => exact jsTrim_idem s
    | null => rfl
    | bool b => rfl
    | num n => rfl
    | arr xs => rfl
    | obj fs => rfl

/-- On success, parseSecretString returns trim-fixed non-empty fields. -/
theorem parseSecretString_ok_shape (s : String) (v : TelegramSecretsResolved)
    (h : parseSecretString s = Except.ok v) :
    v.webhookSecret = jsTrim v.webhookSecret ∧ 0 < v.webhookSecret.length ∧
    v.botToken = jsTrim v.botToken ∧ 0 < v.botToken.length := by
  unfold parseSecretString at h
  cases hj : jsonParse s with
  | none => rw [hj] at h; exact absurd h (by simp)
  | some j =>
    rw [hj] at h
    dsimp only at h
    split at h
    · exact absurd h (by simp)
    · split at h
      · exact absurd h (by simp)
      · split at h
        · exact absurd h (by simp)
        · rename_i hw hb
          have hv : v = { webhookSecret := jsStringField j "webhookSecret"
                          botToken := jsStringField j "botToken" } :=
            (Except.ok.inj h).symm
          subst hv
          refine ⟨(jsStringField_trim_fixed j "webhookSecret").symm, ?_,
            (jsStringField_trim_fixed j "botToken").symm, ?_⟩
          · exact Nat.pos_of_ne_zero (by simpa using hw)
          · exact Nat.pos_of_ne_zero (by simpa using hb)

theorem step_setEnv (s : SysState) (e : Env) :
    step s (Event.setEnv e) = { s with env := e } := rfl

theorem step_call_cached (s : SysState) (c : Nat) (v : TelegramSecretsResolved)
    (hc : s.cachedSecrets = some v) :
    step s (Event.call c) = { s with settled := s.settled ++ [(c, Except.ok v)] } := by
  simp [step, getTelegramSecretsCall, hc]

theorem step_call_join (s : SysState) (c : Nat) (att : Attempt)
    (hc : s.cachedSecrets = none) (hf : s.inFlight = some att) :
    step s (Event.call c) =
      { s with inFlight := some { arn := att.arn, waiters := att.waiters ++ [c] } } := by
  simp [step, getTelegramSecretsCall, hc, hf]

theorem step_call_fetch (s : SysState) (c : Nat) (arn : String)
    (hc : s.cachedSecrets = none) (hf : s.inFlight = none)
    (ha : execStart s.env = ExecStart.fetch arn) :
    step s (Event.call c) =
      { s with inFlight := some { arn := arn, waiters := [c] }, fetches := s.fetches + 1 } := by
  simp [step, getTelegramSecretsCall, hc, hf, ha]

theorem step_call_sync (s : SysState) (c : Nat) (o : Outcome)
    (hc : s.cachedSecrets = none) (hf : s.inFlight = none)
    (ha : execStart s.env = ExecStart.sync o) :
    step s (Event.call c) =
      { s with
        cachedSecrets :=
          (match o with
           | Except.ok v => some v
           | Except.error _ => s.cachedSecrets)
        settled := s.settled ++ [(c, o)] } := by
  cases o with
  | ok v => simp [step, getTelegramSecretsCall, hc, hf, ha]
  | error err => simp [step, getTelegramSecretsCall, hc, hf, ha]

theorem step_store_idle (s : SysState) (p : Option String)
    (hf : s.inFlight = none) :
    step s (Event.storeReturn p) = s := by
  simp [step, storeReturnStep, hf]

theorem step_store_settle (s : SysState) (p : Option String) (att : Attempt)
    (hf : s.inFlight = some att) :
    step s (Event.storeReturn p) =
      { s with
        cachedSecrets :=
          (match fetchContinuation p with
           | Except.ok v => some v
           | Except.error _ => s.cachedSecrets)
        inFlight := none
        settled := s.settled ++ att.waiters.map (fun c => (c, fetchContinuation p)) } := by
  simp [step, storeReturnStep, hf]

/-- While an attempt is in flight, a trace without store response keeps the
cache empty, issues no further store fetch, settles nobody, and only adds
the new callers to the waiters of that same attempt, in arrival order. -/
theorem run_while_inflight (es : List Event) :
    ∀ (s : SysState) (att : Attempt),
    s.cachedSecrets = none → s.inFlight = some att →
    (∀ e ∈ es, isStoreReturn e = false) →
    (run s es).cachedSecrets = none ∧
    (run s es).inFlight = some { arn := att.arn, waiters := att.waiters ++ callIds es } ∧
    (run s es).fetches = s.fetches ∧
    (run s es).settled = s.settled := by
  induction es with
  | nil =>
    intro s att hc hf _
    refine ⟨hc, ?_, rfl, rfl⟩
    rw [run]
    simp only [List.foldl_nil]
    rw [hf, callIds]
    simp
  | cons e rest ih =>
    intro s att hc hf hns
    have hrun : run s (e :: rest) = run (step s e) rest := by
      simp [run, List.foldl_cons]
    cases e with
    | call c =>
      have hstep := step_call_join s c att hc hf
      have ihr := ih (step s (Event.call c)) { arn := att.arn, waiters := att.waiters ++ [c] }
        (by rw [hstep]; exact hc) (by rw [hstep])
        (fun e2 he2 => hns e2 (List.mem_cons_of_mem _ he2))
      rw [hrun]
      refine ⟨ihr.1, ?_, ?_, ?_⟩
      · rw [ihr.2.1]
        simp [callIds, List.filterMap_cons]
      · rw [ihr.2.2.1, hstep]
      · rw [ihr.2.2.2, hstep]
    | storeReturn p =>
      exact absurd (hns (Event.storeReturn p) (List.mem_cons_self _ _)) (by simp [isStoreReturn])
    | setEnv envN =>
      have hstep := step_setEnv s envN
      have ihr := ih (step s (Event.setEnv envN)) att
        (by rw [hstep]; exact hc) (by rw [hstep]; exact hf)
        (fun e2 he2 => hns e2 (List.mem_cons_of_mem _ he2))
      rw [hrun]
      refine ⟨ihr.1, ?_, ?_, ?_⟩
      · rw [ihr.2.1]
        simp [callIds, List.filterMap_cons]
      · rw [ihr.2.2.1, hstep]
      · rw [ihr.2.2.2, hstep]

/-- Once the cache holds a value and no attempt is in flight, any trace
keeps the cache unchanged, never fetches, and settles every caller with
the cached value. -/
theorem run_with_cache (es : List Event) :
    ∀ (s : SysState) (v : TelegramSecretsResolved),
    s.cachedSecrets = some v → s.inFlight = none →
    (run s es).cachedSecrets = some v ∧
    (run s es).inFlight = none ∧
    (run s es).fetches = s.fetches ∧
    (run s es).settled = s.settled ++ (callIds es).map (fun c => (c, Except.ok v)) := by
  induction es with
  | nil =>
    intro s v hc hf
    refine ⟨hc, hf, rfl, ?_⟩
    simp [run, callIds]
  | cons e rest ih =>
    intro s v hc hf
    have hrun : run s (e :: rest) = run (step s e) rest := by
      simp [run, List.foldl_cons]
    cases e with
    | call c =>
      have hstep := step_call_cached s c v hc
      have ihr := ih (step s (Event.call c)) v
        (by rw [hstep]; exact hc) (by rw [hstep]; exact hf)
      rw [hrun]
      refine ⟨ihr.1, ihr.2.1, ?_, ?_⟩
      · rw [ihr.2.2.1, hstep]
      · rw [ihr.2.2.2, hstep]
        simp [callIds, List.filterMap_cons]
    | storeReturn p =>
      have hstep := step_store_idle s p hf
      have ihr := ih (step s (Event.storeReturn p)) v
        (by rw [hstep]; exact hc) (by rw [hstep]; exact hf)
      rw [hrun]
      refine ⟨ihr.1, ihr.2.1, ?_, ?_⟩
      · rw [ihr.2.2.1, hstep]
      · rw [ihr.2.2.2, hstep]
        simp [callIds, List.filterMap_cons]
    | setEnv envN =>
      have hstep := step_setEnv s envN
      have ihr := ih (step s (Event.setEnv envN)) v
        (by rw [hstep]; exact hc) (by rw [hstep]; exact hf)
      rw [hrun]
      refine ⟨ihr.1, ihr.2.1, ?_, ?_⟩
      · rw [ihr.2.2.1, hstep]
      · rw [ihr.2.2.2, hstep]
        simp [callIds, List.filterMap_cons]

theorem skipWs_of_all_ws (l : List Char) (h : l.all isJsonWs = true) :
    skipWs l = [] := by
  induction l with
  | nil => rfl
  | cons a t ih =>
    rw [List.all_cons, Bool.and_eq_true] at h
    rw [skipWs, if_pos h.1]
    exact ih h.2

theorem parseValue_nil (fuel : Nat) : parseValue fuel [] = none := by
  cases fuel with
  | zero => rfl
  | succ f => rfl

/-- A non-empty all-whitespace string is not valid JSON in the model. -/
theorem jsonParse_all_ws (str : String) (h : str.toList.all isJsonWs = true) :
    jsonParse str = none := by
  unfold jsonParse
  rw [skipWs_of_all_ws _ h, parseValue_nil]

theorem beq_empty_false_of_ne (str : String) (h : str ≠ "") : (str == "") = false := by
  simp [h]

/-- The predicate used by claim C8: in this state, the next call by
caller c begins a fresh resolution according to the current environment,
either issuing a new store fetch or settling with the newly computed
synchronous outcome. -/
def startsFresh (s : SysState) (c : Nat) : Prop :=
  (∀ arn, execStart s.env = ExecStart.fetch arn →
    (step s (Event.call c)).fetches = s.fetches + 1 ∧
    (step s (Event.call c)).inFlight = some { arn := arn, waiters := [c] }) ∧
  (∀ o, execStart s.env = ExecStart.sync o →
    (step s (Event.call c)).settled = s.settled ++ [(c, o)])

theorem startsFresh_of_idle (s : SysState) (c : Nat)
    (hc : s.cachedSecrets = none) (hf : s.inFlight = none) : startsFresh s c := by
  constructor
  · intro arn ha
    rw [step_call_fetch s c arn hc hf ha]
    exact ⟨rfl, rfl⟩
  · intro o ha
    rw [step_call_sync s c o hc hf ha]

/-- Claim C1 (single-flight): from a cache-miss idle state whose
environment selects the remote-store branch, the first call issues
exactly one store fetch; any callers arriving before the store responds
(no storeReturn among the events es) never issue a second fetch, and when
the store responds, the attempt settles every such caller with the
outcome of that single in-flight fetch, clearing the in-flight marker. -/
theorem single_flight (s : SysState) (arn : String) (c0 : Nat) (es : List Event)
    (p : Option String)
    (hc : s.cachedSecrets = none) (hf : s.inFlight = none)
    (ha : execStart s.env = ExecStart.fetch arn)
    (hes : ∀ e ∈ es, isStoreReturn e = false) :
    (run (step s (Event.call c0)) es).fetches = s.fetches + 1 ∧
    (step (run (step s (Event.call c0)) es) (Event.storeReturn p)).fetches = s.fetches + 1 ∧
    (step (run (step s (Event.call c0)) es) (Event.storeReturn p)).settled =
      s.settled ++ (c0 :: callIds es).map (fun c => (c, fetchContinuation p)) ∧
    (step (run (step s (Event.call c0)) es) (Event.storeReturn p)).inFlight = none := by
  have hstep := step_call_fetch s c0 arn hc hf ha
  have hrun := run_while_inflight es (step s (Event.call c0)) { arn := arn, waiters := [c0] }
    (by rw [hstep]; exact hc) (by rw [hstep]) hes
  have hsettle := step_store_settle (run (step s (Event.call c0)) es) p
    { arn := arn, waiters := [c0] ++ callIds es } (by rw [hrun.2.1])
  refine ⟨?_, ?_, ?_, ?_⟩
  · rw [hrun.2.2.1, hstep]
  · rw [hsettle]
    show (run (step s (Event.call c0)) es).fetches = s.fetches + 1
    rw [hrun.2.2.1, hstep]
  · rw [hsettle]
    show (run (step s (Event.call c0)) es).settled ++ _ = _
    rw [hrun.2.2.2, hstep]
    show s.settled ++ _ = _
    rfl
  · rw [hsettle]

/-- Claim C2 (permanent positive caching): once a value is cached and no
attempt is in flight, any later trace of calls, stray store responses and
arbitrary environment mutations keeps the cache at that value, performs
no store fetch, and settles every caller with exactly the cached value. -/
theorem permanent_positive_cache (s : SysState) (v : TelegramSecretsResolved)
    (es : List Event)
    (hc : s.cachedSecrets = some v) (hf : s.inFlight = none) :
    (run s es).cachedSecrets = some v ∧
    (run s es).inFlight = none ∧
    (run s es).fetches = s.fetches ∧
    (run s es).settled = s.settled ++ (callIds es).map (fun c => (c, Except.ok v)) := by
  exact run_with_cache es s v hc hf

/-- A concrete fallback configuration whose webhook value carries
surrounding whitespace. -/
def stateC3 : SysState :=
  { env := { TELEGRAM_SECRET_ARN := none
             TELEGRAM_WEBHOOK_SECRET := some " x "
             TELEGRAM_BOT_TOKEN := some "y"
             NODE_ENV := none }
    cachedSecrets := none
    inFlight := none
    fetches := 0
    settled := [] }

/-- Counterexample to claim C3 as stated: with the fallback values
" x " and "y" configured and no remote identifier, resolution succeeds
and returns webhookSecret " x ", which is not equal to its own trim, so a
successful resolution can carry leading and trailing whitespace. -/
theorem resolved_fields_counterexample :
    (step stateC3 (Event.call 0)).settled =
      [(0, Except.ok { webhookSecret := " x ", botToken := "y" })] ∧
    jsTrim " x " ≠ " x " := by
  exact ⟨rfl, by decide⟩

/-- Claim C3 (amended): every successful resolution returns fields that
are non-empty after trimming; on the remote-store path both fields
additionally equal their own trim, while the fallback path returns the
configured values verbatim, so they may carry surrounding whitespace. -/
theorem resolved_fields_nonblank (env : Env) (p : Option String)
    (v w : TelegramSecretsResolved) :
    (execStart env = ExecStart.sync (Except.ok v) →
      0 < (jsTrim v.webhookSecret).length ∧ 0 < (jsTrim v.botToken).length) ∧
    (fetchContinuation p = Except.ok w →
      w.webhookSecret = jsTrim w.webhookSecret ∧ 0 < w.webhookSecret.length ∧
      w.botToken = jsTrim w.botToken ∧ 0 < w.botToken.length) := by
  constructor
  · intro hsync
    unfold execStart at hsync
    by_cases h1 : arnConfigured env.TELEGRAM_SECRET_ARN
    · rw [if_pos h1] at hsync
      exact absurd hsync (by simp)
    · rw [if_neg h1] at hsync
      by_cases h2 : fallbackConfigured env.TELEGRAM_WEBHOOK_SECRET env.TELEGRAM_BOT_TOKEN
      · rw [if_pos h2] at hsync
        have hv : ({ webhookSecret := env.TELEGRAM_WEBHOOK_SECRET.getD ""
                     botToken := env.TELEGRAM_BOT_TOKEN.getD "" } :
                   TelegramSecretsResolved) = v := by
          have := ExecStart.sync.inj hsync
          exact Except.ok.inj this
        unfold fallbackConfigured at h2
        rw [Bool.and_eq_true, Bool.and_eq_true, Bool.and_eq_true] at h2
        refine ⟨?_, ?_⟩
        · rw [← hv]
          exact of_decide_eq_true h2.1.2
        · rw [← hv]
          exact of_decide_eq_true h2.2.2
      · rw [if_neg h2] at hsync
        by_cases h3 : isProduction env
        · rw [if_pos h3] at hsync
          exact absurd (ExecStart.sync.inj hsync) (by simp)
        · rw [if_neg h3] at hsync
          exact absurd (ExecStart.sync.inj hsync) (by simp)
  · intro hfetch
    cases p with
    | none => exact absurd hfetch (by simp [fetchContinuation])
    | some str =>
      have hfetch2 :
          (if str == "" then
            (Except.error (SecretError.secretNotFoundError "SecretString is empty") : Outcome)
          else parseSecretString str) = Except.ok w := hfetch
      by_cases hne : (str == "") = true
      · rw [if_pos hne] at hfetch2
        exact absurd hfetch2 (by simp)
      · rw [if_neg hne] at hfetch2
        have h := parseSecretString_ok_shape str w hfetch2
        exact ⟨h.1, h.2.1, h.2.2.1, h.2.2.2⟩

/-- Witness for the amended claim C3 at concrete inputs: the fallback
configuration of stateC3 succeeds with fields that are non-empty after
trimming, and a concrete remote payload with padded fields is returned
trimmed and non-empty. -/
theorem resolved_fields_nonblank_witness :
    (0 < (jsTrim (" x " : String)).length ∧ 0 < (jsTrim ("y" : String)).length) ∧
    (("a" : String) = jsTrim "a" ∧ 0 < ("a" : String).length ∧
     ("b" : String) = jsTrim "b" ∧ 0 < ("b" : String).length) := by
  constructor
  · exact (resolved_fields_nonblank stateC3.env none
      { webhookSecret := " x ", botToken := "y" }
      { webhookSecret := "", botToken := "" }).1 rfl
  · exact (resolved_fields_nonblank stateC3.env
      (some "\x7b\"webhookSecret\": \" a \", \"botToken\": \" b \"\x7d")
      { webhookSecret := "", botToken := "" }
      { webhookSecret := "a", botToken := "b" }).2 rfl

/-- A configuration with no remote identifier and both fallback values
set and non-empty as strings, but with a whitespace-only webhook value. -/
def stateC4 : SysState :=
  { env := { TELEGRAM_SECRET_ARN := none
             TELEGRAM_WEBHOOK_SECRET := some " "
             TELEGRAM_BOT_TOKEN := some "x"
             NODE_ENV := none }
    cachedSecrets := none
    inFlight := none
    fetches := 0
    settled := [] }

/-- Counterexample to claim C4 as stated: with no remote identifier and
both fallback values set and non-empty (webhook value " ", token "x"),
resolution does not succeed with those values: it fails with
SecretNotFoundError, because the code additionally requires the fallback
values to be non-empty after trimming. -/
theorem fallback_precedence_counterexample :
    (step stateC4 (Event.call 0)).settled =
      [(0, Except.error
        (SecretError.secretNotFoundError "Telegram secrets not fully configured"))] ∧
    (step stateC4 (Event.call 0)).fetches = 0 := by
  exact ⟨rfl, rfl⟩

/-- Claim C4 (amended): when no remote identifier is set and both
fallback values are set and non-blank (non-empty after trimming),
resolution succeeds with exactly those two values verbatim, caches them,
and the store is never contacted (fetch count and in-flight state are
untouched). -/
theorem fallback_precedence (s : SysState) (c : Nat) (w t : String)
    (hc : s.cachedSecrets = none) (hf : s.inFlight = none)
    (ha : s.env.TELEGRAM_SECRET_ARN = none)
    (hw : s.env.TELEGRAM_WEBHOOK_SECRET = some w)
    (ht : s.env.TELEGRAM_BOT_TOKEN = some t)
    (hwn : 0 < (jsTrim w).length) (htn : 0 < (jsTrim t).length) :
    step s (Event.call c) =
      { s with
        cachedSecrets := some { webhookSecret := w, botToken := t }
        settled := s.settled ++ [(c, Except.ok { webhookSecret := w, botToken := t })] } := by
  have hexec : execStart s.env =
      ExecStart.sync (Except.ok { webhookSecret := w, botToken := t }) := by
    unfold execStart
    rw [ha, hw, ht]
    have h1 : arnConfigured none = false := rfl
    have h2 : fallbackConfigured (some w) (some t) = true := by
      unfold fallbackConfigured
      rw [Bool.and_eq_true, Bool.and_eq_true, Bool.and_eq_true]
      refine ⟨⟨?_, ?_⟩, ?_, ?_⟩
      · simp [optTruthy, jsTrim_pos_ne_empty w hwn]
      · exact decide_eq_true hwn
      · simp [optTruthy, jsTrim_pos_ne_empty t htn]
      · exact decide_eq_true htn
    rw [h1, h2]
    rfl
  rw [step_call_sync s c (Except.ok { webhookSecret := w, botToken := t }) hc hf hexec]

/-- Witness for the amended claim C4: with fallback values "w" and "t"
configured, the call settles successfully with those values, caches them,
and issues no fetch. -/
theorem fallback_precedence_witness :
    step { env := { TELEGRAM_SECRET_ARN := none
                    TELEGRAM_WEBHOOK_SECRET := some "w"
                    TELEGRAM_BOT_TOKEN := some "t"
                    NODE_ENV := none }
           cachedSecrets := none
           inFlight := none
           fetches := 0
           settled := [] } (Event.call 0) =
      { env := { TELEGRAM_SECRET_ARN := none
                 TELEGRAM_WEBHOOK_SECRET := some "w"
                 TELEGRAM_BOT_TOKEN := some "t"
                 NODE_ENV := none }
        cachedSecrets := some { webhookSecret := "w", botToken := "t" }
        inFlight := none
        fetches := 0
        settled := [(0, Except.ok { webhookSecret := "w", botToken := "t" })] } := by
  exact fallback_precedence _ 0 "w" "t" rfl rfl rfl rfl rfl (by decide) (by decide)

/-- A production configuration with only a lone bot-token fallback. -/
def stateC5prod : SysState :=
  { env := { TELEGRAM_SECRET_ARN := none
             TELEGRAM_WEBHOOK_SECRET := none
             TELEGRAM_BOT_TOKEN := some "x"
             NODE_ENV := some "Production" }
    cachedSecrets := none
    inFlight := none
    fetches := 0
    settled := [] }

/-- A non-production configuration with only a lone webhook fallback. -/
def stateC5dev : SysState :=
  { env := { TELEGRAM_SECRET_ARN := none
             TELEGRAM_WEBHOOK_SECRET := some "y"
             TELEGRAM_BOT_TOKEN := none
             NODE_ENV := none }
    cachedSecrets := none
    inFlight := none
    fetches := 0
    settled := [] }

/-- Claim C5 (nothing configured): with no remote identifier and not both
fallback values set, the call issues no fetch, caches nothing, and fails:
with ConfigError when the production flag compares case-insensitively
equal to "production", and with SecretNotFoundError otherwise. -/
theorem nothing_configured_policy (s : SysState) (c : Nat)
    (hc : s.cachedSecrets = none) (hf : s.inFlight = none)
    (ha : s.env.TELEGRAM_SECRET_ARN = none)
    (hnb : s.env.TELEGRAM_WEBHOOK_SECRET = none ∨ s.env.TELEGRAM_BOT_TOKEN = none) :
    (step s (Event.call c)).fetches = s.fetches ∧
    (step s (Event.call c)).cachedSecrets = none ∧
    (isProduction s.env = true →
      (step s (Event.call c)).settled = s.settled ++
        [(c, Except.error
          (SecretError.configError "TELEGRAM_SECRET_ARN is required in production"))]) ∧
    (isProduction s.env = false →
      (step s (Event.call c)).settled = s.settled ++
        [(c, Except.error
          (SecretError.secretNotFoundError "Telegram secrets not fully configured"))]) := by
  have hfb : fallbackConfigured s.env.TELEGRAM_WEBHOOK_SECRET s.env.TELEGRAM_BOT_TOKEN = false := by
    cases hnb with
    | inl h => rw [h]; simp [fallbackConfigured, optTruthy]
    | inr h => rw [h]; simp [fallbackConfigured, optTruthy]
  by_cases hprod : isProduction s.env = true
  · have hexec : execStart s.env = ExecStart.sync (Except.error
        (SecretError.configError "TELEGRAM_SECRET_ARN is required in production")) := by
      unfold execStart
      rw [ha, hfb, hprod]
      rfl
    rw [step_call_sync s c _ hc hf hexec]
    refine ⟨rfl, hc, fun _ => rfl, fun hnp => ?_⟩
    rw [hprod] at hnp
    exact absurd hnp (by simp)
  · have hnprod : isProduction s.env = false := by
      cases h : isProduction s.env
      · rfl
      · exact absurd h hprod
    have hexec : execStart s.env = ExecStart.sync (Except.error
        (SecretError.secretNotFoundError "Telegram secrets not fully configured")) := by
      unfold execStart
      rw [ha, hfb, hnprod]
      rfl
    rw [step_call_sync s c _ hc hf hexec]
    refine ⟨rfl, hc, fun hp => ?_, fun _ => rfl⟩
    rw [hnprod] at hp
    exact absurd hp (by simp)

/-- Witness for claim C5: a production configuration with nothing set
fails with ConfigError, and the same configuration without the production
flag fails with SecretNotFoundError; neither fetches nor caches. -/
theorem nothing_configured_policy_witness :
    ((step stateC5prod (Event.call 0)).fetches = stateC5prod.fetches ∧
     (step stateC5prod (Event.call 0)).cachedSecrets = none ∧
     (step stateC5prod (Event.call 0)).settled = stateC5prod.settled ++
       [(0, Except.error
         (SecretError.configError "TELEGRAM_SECRET_ARN is required in production"))]) ∧
    ((step stateC5dev (Event.call 1)).fetches = stateC5dev.fetches ∧
     (step stateC5dev (Event.call 1)).cachedSecrets = none ∧
     (step stateC5dev (Event.call 1)).settled = stateC5dev.settled ++
       [(1, Except.error
         (SecretError.secretNotFoundError "Telegram secrets not fully configured"))]) := by
  constructor
  · have h := nothing_configured_policy stateC5prod 0 rfl rfl rfl (Or.inl rfl)
    exact ⟨h.1, h.2.1, h.2.2.1 rfl⟩
  · have h := nothing_configured_policy stateC5dev 1 rfl rfl rfl (Or.inr rfl)
    exact ⟨h.1, h.2.1, h.2.2.2 rfl⟩

/-- A state with a pending fetch awaited by callers 4 and 5. -/
def stateC7 : SysState :=
  { env := { TELEGRAM_SECRET_ARN := some "a"
             TELEGRAM_WEBHOOK_SECRET := none
             TELEGRAM_BOT_TOKEN := none
             NODE_ENV := none }
    cachedSecrets := none
    inFlight := some { arn := "a", waiters := [4, 5] }
    fetches := 1
    settled := [] }

/-- Claim C6 (payload validation): whenever the payload is not valid
JSON, or parses to a JavaScript-falsy value or a non-object, or its
webhookSecret or botToken property is missing, not a string, or empty
after trimming, parseSecretString fails with SecretMalformedError; a
payload containing only one of the two required fields is therefore
rejected, never partially accepted. -/
theorem payload_validation (payload : String)
    (h : ∀ j, jsonParse payload = some j →
      jsFalsy j = true ∨ jsTypeofObject j = false ∨
      (jsStringField j "webhookSecret").length = 0 ∨
      (jsStringField j "botToken").length = 0) :
    ∃ msg, parseSecretString payload = Except.error (SecretError.secretMalformedError msg) ∧
      ∀ s att, s.inFlight = some att → payload ≠ "" →
        (step s (Event.storeReturn (some payload))).settled =
          s.settled ++ att.waiters.map (fun c =>
            (c, Except.error (SecretError.secretMalformedError msg))) := by
  have hmain : ∃ msg,
      parseSecretString payload = Except.error (SecretError.secretMalformedError msg) := by
    unfold parseSecretString
    cases hj : jsonParse payload with
    | none => exact ⟨"Failed to parse secret JSON", rfl⟩
    | some j =>
      dsimp only
      by_cases h0 : (jsFalsy j || !jsTypeofObject j) = true
      · rw [if_pos h0]
        exact ⟨"Secret JSON is not an object", rfl⟩
      · rw [if_neg h0]
        by_cases hw : ((jsStringField j "webhookSecret").length == 0) = true
        · rw [if_pos hw]
          exact ⟨"webhookSecret missing or empty", rfl⟩
        · rw [if_neg hw]
          by_cases hb : ((jsStringField j "botToken").length == 0) = true
          · rw [if_pos hb]
            exact ⟨"botToken missing or empty", rfl⟩
          · exfalso
            rcases h j hj with h1 | h1 | h1 | h1
            · exact h0 (by rw [h1]; rfl)
            · exact h0 (by rw [h1]; simp)
            · exact hw (by rw [h1]; rfl)
            · exact hb (by rw [h1]; rfl)
  obtain ⟨msg, hmal⟩ := hmain
  refine ⟨msg, hmal, ?_⟩
  intro s att hf hne
  have hout : fetchContinuation (some payload) =
      Except.error (SecretError.secretMalformedError msg) := by
    have h1 : fetchContinuation (some payload) =
        (if payload == "" then
          (Except.error (SecretError.secretNotFoundError "SecretString is empty") : Outcome)
        else parseSecretString payload) := rfl
    rw [h1, if_neg (by simp [hne]), hmal]
  rw [step_store_settle s (some payload) att hf, hout]

/-- Witness for claim C6: the payload carrying only the webhookSecret
field is rejected with SecretMalformedError, and the pending attempt of
stateC7 settles both waiters with that error. -/
theorem payload_validation_witness :
    ∃ msg, parseSecretString "\x7b\"webhookSecret\": \"x\"\x7d" =
      Except.error (SecretError.secretMalformedError msg) ∧
      (step stateC7 (Event.storeReturn (some "\x7b\"webhookSecret\": \"x\"\x7d"))).settled =
        stateC7.settled ++ [(4 : Nat), 5].map (fun c =>
          (c, Except.error (SecretError.secretMalformedError msg))) := by
  have h := payload_validation "\x7b\"webhookSecret\": \"x\"\x7d" (by
    intro j hj
    have he : jsonParse "\x7b\"webhookSecret\": \"x\"\x7d" =
        some (Json.obj [("webhookSecret", Json.str "x")]) := rfl
    injection he.symm.trans hj with h2
    rw [← h2]
    right
    right
    right
    rfl)
  obtain ⟨msg, h1, h2⟩ := h
  exact ⟨msg, h1, h2 stateC7 { arn := "a", waiters := [4, 5] } rfl (by decide)⟩

/-- Claim C7 (missing or empty store payload): when the store responds to
the pending fetch with an absent SecretString (undefined) or the empty
string, the attempt settles every waiting caller with SecretNotFoundError
and the cache is left untouched. -/
theorem empty_payload_not_found (s : SysState) (att : Attempt) (p : Option String)
    (hf : s.inFlight = some att)
    (hp : p = none ∨ p = some "") :
    (step s (Event.storeReturn p)).settled =
      s.settled ++ att.waiters.map (fun c =>
        (c, Except.error (SecretError.secretNotFoundError "SecretString is empty"))) ∧
    (step s (Event.storeReturn p)).cachedSecrets = s.cachedSecrets ∧
    (step s (Event.storeReturn p)).inFlight = none := by
  have hout : fetchContinuation p =
      Except.error (SecretError.secretNotFoundError "SecretString is empty") := by
    cases hp with
    | inl h => rw [h]; rfl
    | inr h => rw [h]; rfl
  rw [step_store_settle s p att hf, hout]
  exact ⟨rfl, rfl, rfl⟩

/-- Witness for claim C7: a pending attempt with two waiters settles both
with SecretNotFoundError when the store returns no SecretString. -/
theorem empty_payload_not_found_witness :
    (step stateC7 (Event.storeReturn none)).settled =
      stateC7.settled ++ [(4 : Nat), 5].map (fun c =>
        (c, Except.error (SecretError.secretNotFoundError "SecretString is empty"))) ∧
    (step stateC7 (Event.storeReturn none)).cachedSecrets = stateC7.cachedSecrets ∧
    (step stateC7 (Event.storeReturn none)).inFlight = none := by
  exact empty_payload_not_found stateC7 { arn := "a", waiters := [4, 5] } none rfl (Or.inl rfl)

/-- Claim C8 (no negative caching): if an in-flight attempt fails, the
storeReturn leaves both the cache and the in-flight marker empty and the
next call starts a fresh resolution; likewise a synchronously failing
attempt (ConfigError or SecretNotFoundError from the branch logic) leaves
them empty and the next call starts fresh. -/
theorem no_negative_caching (s : SysState) (c0 c : Nat) (err : SecretError)
    (hc : s.cachedSecrets = none) :
    (∀ att p, s.inFlight = some att → fetchContinuation p = Except.error err →
      (step s (Event.storeReturn p)).cachedSecrets = none ∧
      (step s (Event.storeReturn p)).inFlight = none ∧
      startsFresh (step s (Event.storeReturn p)) c) ∧
    (s.inFlight = none → execStart s.env = ExecStart.sync (Except.error err) →
      (step s (Event.call c0)).cachedSecrets = none ∧
      (step s (Event.call c0)).inFlight = none ∧
      startsFresh (step s (Event.call c0)) c) := by
  constructor
  · intro att p hf he
    have hs := step_store_settle s p att hf
    rw [hs, he]
    refine ⟨hc, rfl, ?_⟩
    apply startsFresh_of_idle
    · exact hc
    · rfl
  · intro hf he
    have hs := step_call_sync s c0 (Except.error err) hc hf he
    rw [hs]
    refine ⟨hc, hf, ?_⟩
    apply startsFresh_of_idle
    · exact hc
    · exact hf

/-- A state with a pending fetch whose environment was cleared after the
fetch was issued, so the next attempt is evaluated against an
unconfigured non-production environment. -/
def stateC8 : SysState :=
  { env := { TELEGRAM_SECRET_ARN := none
             TELEGRAM_WEBHOOK_SECRET := none
             TELEGRAM_BOT_TOKEN := none
             NODE_ENV := none }
    cachedSecrets := none
    inFlight := some { arn := "a", waiters := [3] }
    fetches := 1
    settled := [] }

/-- Witness for claim C8: after a failed fetch (store returns no
SecretString), cache and in-flight marker are empty, and the very next
call settles from the freshly evaluated environment, which is now
unconfigured and non-production, with a new SecretNotFoundError. -/
theorem no_negative_caching_witness :
    (step stateC8 (Event.storeReturn none)).cachedSecrets = none ∧
    (step stateC8 (Event.storeReturn none)).inFlight = none ∧
    (step (step stateC8 (Event.storeReturn none)) (Event.call 1)).settled =
      (step stateC8 (Event.storeReturn none)).settled ++
        [(1, Except.error
          (SecretError.secretNotFoundError "Telegram secrets not fully configured"))] := by
  have h := (no_negative_caching stateC8 0 1
    (SecretError.secretNotFoundError "SecretString is empty") rfl).1
    { arn := "a", waiters := [3] } none rfl rfl
  exact ⟨h.1, h.2.1, h.2.2.2 _ rfl⟩

/-- A cache-miss idle state with the remote identifier "arn:x". -/
def stateC1 : SysState :=
  { env := { TELEGRAM_SECRET_ARN := some "arn:x"
             TELEGRAM_WEBHOOK_SECRET := none
             TELEGRAM_BOT_TOKEN := none
             NODE_ENV := none }
    cachedSecrets := none
    inFlight := none
    fetches := 0
    settled := [] }

def payloadC1 : Option String :=
  some "\x7b\"webhookSecret\": \"a\", \"botToken\": \"b\"\x7d"

/-- A configuration whose remote identifier is the non-empty but
whitespace-only string " ", with both fallbacks configured. -/
def stateC9 : SysState :=
  { env := { TELEGRAM_SECRET_ARN := some " "
             TELEGRAM_WEBHOOK_SECRET := some "w"
             TELEGRAM_BOT_TOKEN := some "t"
             NODE_ENV := none }
    cachedSecrets := none
    inFlight := none
    fetches := 0
    settled := [] }

/-- Counterexample to claim C9 as stated: with the remote identifier
configured as the non-empty whitespace-only string " ", the resolver does
not fetch from the store: it takes the fallback branch, issuing no fetch
and settling with the fallback values. -/
theorem remote_branch_selection_counterexample :
    (step stateC9 (Event.call 0)).fetches = 0 ∧
    (step stateC9 (Event.call 0)).inFlight = none ∧
    (step stateC9 (Event.call 0)).settled =
      [(0, Except.ok { webhookSecret := "w", botToken := "t" })] := by
  exact ⟨rfl, rfl, rfl⟩

/-- Claim C9 (amended): on a cache-miss call, the remote branch is taken
exactly when the configured identifier is non-blank (non-empty after
trimming): the resolver then issues one store fetch carrying that
identifier; a whitespace-only identifier instead falls through to the
fallback branch. -/
theorem remote_branch_selection (s : SysState) (c : Nat) (a : String)
    (hc : s.cachedSecrets = none) (hf : s.inFlight = none)
    (ha : s.env.TELEGRAM_SECRET_ARN = some a)
    (han : 0 < (jsTrim a).length) :
    step s (Event.call c) =
      { s with
        inFlight := some { arn := a, waiters := [c] }
        fetches := s.fetches + 1 } := by
  have hexec : execStart s.env = ExecStart.fetch a := by
    unfold execStart
    rw [ha]
    have h1 : arnConfigured (some a) = true := by
      unfold arnConfigured
      rw [Bool.and_eq_true]
      constructor
      · simp [optTruthy, jsTrim_pos_ne_empty a han]
      · exact decide_eq_true han
    rw [h1]
    rfl
  exact step_call_fetch s c a hc hf hexec

/-- Witness for the amended claim C9: with the identifier "arn:x"
configured, the call issues one fetch carrying "arn:x". -/
theorem remote_branch_selection_witness :
    step stateC1 (Event.call 2) =
      { stateC1 with
        inFlight := some { arn := "arn:x", waiters := [2] }
        fetches := stateC1.fetches + 1 } := by
  exact remote_branch_selection stateC1 2 "arn:x" rfl rfl rfl (by decide)

/-- Claim C10 (whitespace-only payload): when the store answers the
pending fetch with a non-empty payload consisting only of whitespace, the
payload passes the emptiness check but fails JSON parsing, so every
waiting caller settles with SecretMalformedError (not
SecretNotFoundError) and the cache is left untouched. -/
theorem whitespace_payload_malformed (s : SysState) (att : Attempt) (str : String)
    (hf : s.inFlight = some att)
    (hne : str ≠ "")
    (hws : str.toList.all isJsonWs = true) :
    (step s (Event.storeReturn (some str))).settled =
      s.settled ++ att.waiters.map (fun c =>
        (c, Except.error (SecretError.secretMalformedError "Failed to parse secret JSON"))) ∧
    (step s (Event.storeReturn (some str))).cachedSecrets = s.cachedSecrets ∧
    (step s (Event.storeReturn (some str))).inFlight = none := by
  have hout : fetchContinuation (some str) =
      Except.error (SecretError.secretMalformedError "Failed to parse secret JSON") := by
    have h1 : fetchContinuation (some str) =
        (if str == "" then
          (Except.error (SecretError.secretNotFoundError "SecretString is empty") : Outcome)
        else parseSecretString str) := rfl
    rw [h1, if_neg (by simp [hne])]
    unfold parseSecretString
    rw [jsonParse_all_ws str hws]
  rw [step_store_settle s (some str) att hf, hout]
  exact ⟨rfl, rfl, rfl⟩

/-- Witness for claim C10: the store answering with the payload " "
settles the two waiters of stateC7 with SecretMalformedError. -/
theorem whitespace_payload_malformed_witness :
    (step stateC7 (Event.storeReturn (some " "))).settled =
      stateC7.settled ++ [(4 : Nat), 5].map (fun c =>
        (c, Except.error (SecretError.secretMalformedError "Failed to parse secret JSON"))) ∧
    (step stateC7 (Event.storeReturn (some " "))).cachedSecrets = stateC7.cachedSecrets ∧
    (step stateC7 (Event.storeReturn (some " "))).inFlight = none := by
  exact whitespace_payload_malformed stateC7 { arn := "a", waiters := [4, 5] } " "
    rfl (by decide) (by decide)

/-- Witness for claim C1: two concurrent callers, a single fetch, and a
shared outcome when the store responds. -/
theorem single_flight_witness :
    (run (step stateC1 (Event.call 0)) [Event.call 1]).fetches = stateC1.fetches + 1 ∧
    (step (run (step stateC1 (Event.call 0)) [Event.call 1])
        (Event.storeReturn payloadC1)).fetches = stateC1.fetches + 1 ∧
    (step (run (step stateC1 (Event.call 0)) [Event.call 1])
        (Event.storeReturn payloadC1)).settled =
      stateC1.settled ++ (0 :: callIds [Event.call 1]).map
        (fun c => (c, fetchContinuation payloadC1)) ∧
    (step (run (step stateC1 (Event.call 0)) [Event.call 1])
        (Event.storeReturn payloadC1)).inFlight = none := by
  exact single_flight stateC1 "arn:x" 0 [Event.call 1] payloadC1 rfl rfl rfl
    (by intro e he; rw [List.mem_singleton] at he; rw [he]; rfl)

/-- A state holding the cached value resolved earlier, with fetch count
one. -/
def stateC2 : SysState :=
  { env := { TELEGRAM_SECRET_ARN := some "arn:x"
             TELEGRAM_WEBHOOK_SECRET := none
             TELEGRAM_BOT_TOKEN := none
             NODE_ENV := none }
    cachedSecrets := some { webhookSecret := "cw", botToken := "ct" }
    inFlight := none
    fetches := 1
    settled := [] }

/-- A trace that clears the remote identifier and changes the fallback
variables, then calls twice. -/
def esC2 : List Event :=
  [Event.setEnv { TELEGRAM_SECRET_ARN := none
                  TELEGRAM_WEBHOOK_SECRET := some "other"
                  TELEGRAM_BOT_TOKEN := some "other2"
                  NODE_ENV := none },
   Event.call 7, Event.call 8]

/-- Witness for claim C2: after the successful resolution cached in
stateC2, clearing the identifier and changing the fallbacks does not
matter: both later calls settle with the cached value and no further
fetch occurs. -/
theorem permanent_positive_cache_witness :
    (run stateC2 esC2).cachedSecrets = some { webhookSecret := "cw", botToken := "ct" } ∧
    (run stateC2 esC2).inFlight = none ∧
    (run stateC2 esC2).fetches = stateC2.fetches ∧
    (run stateC2 esC2).settled = stateC2.settled ++ (callIds esC2).map
      (fun c => (c, Except.ok { webhookSecret := "cw", botToken := "ct" })) := by
  exact permanent_positive_cache stateC2 { webhookSecret := "cw", botToken := "ct" }
    esC2 rfl rfl

end TgSecret
